import Mathlib

/-!
Shallow embedding of `flint/sclient.py`, function `run_singularity_command`.

The function is modelled as a pure function from an abstract environment
(filesystem existence test, path canonicalization, hostname, container
runtime) and the call arguments to a pair of
  * a trace of observable events (log messages by level, callback
    invocations, the single runtime spawn with its argument vector and
    bind list), in the order the Python code performs them, and
  * a result: success, or the raised exception.

Python specifics kept faithful:
  * `image.exists()` is `Env.pathExists`; `p.absolute().resolve()` and
    `image.resolve(strict=True).as_posix()` are `Env.canon` (the
    filesystem is assumed stable during the call).
  * `command.split()` is `pySplit`: split on runs of whitespace,
    discarding empty tokens.
  * `line.rstrip()` is `pyRstrip`: drop all trailing whitespace.
  * `list(set(...))` is `List.dedup` (an unordered set; order of the
    resulting list carries no meaning).
  * crucially, the local variable `bind` is assigned only inside the
    `if bind_dirs:` block; when `bind_dirs` is `None` or an empty
    collection, the later `bind=bind` argument raises
    `UnboundLocalError`, modelled by `RunError.unboundLocal "bind"`.
  * `bind_str` is initialized to `None` and never reassigned (the
    assignment is commented out in the source), so the debug message is
    always the literal `"Constructed singularity bindings: None"`.
  * `sclient.execute(..., stream=True)` returns a stream; the
    `CalledProcessError` is raised while the stream is consumed, so the
    failure case carries the lines already emitted before the failure.
-/

def isPySpace (c : Char) : Bool :=
  c = ' ' || c = '\t' || c = '\n' || c = '\r' || c = '\x0b' || c = '\x0c'

/-- Python `str.split()` with no arguments: split on runs of whitespace,
no empty tokens. Accumulator holds the current token reversed. -/
def splitWsAux : List Char → List Char → List (List Char)
  | [], acc => if acc = [] then [] else [acc.reverse]
  | c :: cs, acc =>
      if isPySpace c then
        (if acc = [] then [] else [acc.reverse]) ++ splitWsAux cs []
      else
        splitWsAux cs (c :: acc)

def pySplit (s : String) : List String :=
  (splitWsAux s.data []).map String.mk

/-- Python `str.rstrip()`: drop all trailing whitespace characters. -/
def pyRstrip (s : String) : String :=
  String.mk ((s.data.reverse.dropWhile isPySpace).reverse)

/-- An observable event of one call, in program order. -/
inductive Event where
  | logInfo (msg : String)
  | logDebug (msg : String)
  | logError (msg : String)
  | callback (line : String)
  | spawn (image : String) (argv : List String) (bind : Option (List String))
deriving DecidableEq, Repr

def Event.isCallback : Event → Bool
  | .callback _ => true
  | _ => false

/-- The exceptions the Python function can raise.
`imageNotFound` is `FileNotFoundError`, `executionFailed` is
`CalledProcessError` (with the fields the handler reads), and
`unboundLocal` is the `UnboundLocalError` raised when `bind` is read
without having been assigned. -/
inductive RunError where
  | imageNotFound (msg : String)
  | unboundLocal (var : String)
  | executionFailed (cmd : String) (stdout : String) (stderr : String)
deriving DecidableEq, Repr

/-- Outcome of the container runtime (`sclient.execute` plus consumption
of its stream): either the full list of output lines with exit status 0,
or a `CalledProcessError` carrying the lines streamed before the failure
and the exception's `cmd`, `stdout` and `stderr` fields. -/
inductive ExecResult where
  | ok (lines : List String)
  | err (plines : List String) (cmd : String) (stdout : String) (stderr : String)

/-- The external world: filesystem queries, hostname, container runtime.
`execute` receives the canonical image path, the argument vector and the
optional bind list, exactly as `sclient.execute` does. -/
structure Env where
  pathExists : String → Bool
  canon : String → String
  hostname : String
  execute : String → List String → Option (List String) → ExecResult

/-- The `bind_dirs` argument: `None` is `Option.none`; otherwise a bare
`Path` or a collection of paths. -/
inductive BindDirs where
  | path (p : String)
  | coll (ps : List String)

def startMsg (command image : String) : String :=
  s!"Running {command} in {image}"

def hostMsg (h : String) : String :=
  s!"Attempting to run singularity command on {h}"

def notFoundMsg (image : String) : String :=
  s!"The singularity container {image} was not found. "

def debugMsg : String :=
  "Constructed singularity bindings: None"

/-- The four `logger.error` calls of the `except` block, in order. -/
def errorEvents (command cmd out errS : String) : List Event :=
  [.logError (s!"Failed to run command: {command}"),
   .logError (s!"Stdout: {out}"),
   .logError (s!"Stderr: {errS}"),
   .logError (s!"e=CalledProcessError {cmd}")]

/-- `list(set([str(p.absolute().resolve()) for p in bind_dirs]))`. -/
def bindOf (env : Env) (dirs : List String) : List String :=
  (dirs.map env.canon).dedup

/-- The body of the `for line in output:` loop: log the stripped line at
info level, then (if a callback was supplied) pass the raw line to it. -/
def streamEvents (hasCb : Bool) (lines : List String) : List Event :=
  lines.flatMap fun line =>
    .logInfo (pyRstrip line) :: (if hasCb then [.callback line] else [])

/-- The part of the function from the `logger.debug` call on, once
`bind_dirs` has been normalized to the list `dirs` (nonempty, since the
`if bind_dirs:` guard passed). -/
def runBody (env : Env) (image command : String) (dirs : List String)
    (hasCb : Bool) : List Event × Except RunError Unit :=
  let bind : Option (List String) :=
    if dirs.length > 0 then some (bindOf env dirs) else none
  let ev1 : List Event :=
    [.logInfo (startMsg command image), .logInfo (hostMsg env.hostname),
     .logDebug debugMsg]
  let argv := pySplit command
  let img := env.canon image
  match env.execute img argv bind with
  | .ok lines =>
      (ev1 ++ .spawn img argv bind :: streamEvents hasCb lines, .ok ())
  | .err plines cmd out errS =>
      (ev1 ++ .spawn img argv bind ::
         (streamEvents hasCb plines ++ errorEvents command cmd out errS),
       .error (.executionFailed cmd out errS))

/-- `run_singularity_command(image, command, bind_dirs, stream_callback_func)`.
The callback argument is modelled by its presence (`hasCb`); its
invocations appear in the trace as `Event.callback` events. -/
def run_singularity_command (env : Env) (image command : String)
    (bind_dirs : Option BindDirs) (hasCb : Bool) :
    List Event × Except RunError Unit :=
  if env.pathExists image then
    match bind_dirs with
    | none =>
        ([.logInfo (startMsg command image), .logInfo (hostMsg env.hostname)],
         .error (.unboundLocal "bind"))
    | some (.coll []) =>
        ([.logInfo (startMsg command image), .logInfo (hostMsg env.hostname)],
         .error (.unboundLocal "bind"))
    | some (.path p) => runBody env image command [p] hasCb
    | some (.coll (p :: ps)) => runBody env image command (p :: ps) hasCb
  else
    ([], .error (.imageNotFound (notFoundMsg image)))

example : pySplit "echo hello" = ["echo", "hello"] := by decide
example : pySplit "  echo   a  " = ["echo", "a"] := by decide
example : pySplit "" = [] := by decide
example : pySplit "   " = [] := by decide
example : pyRstrip "hi \n" = "hi" := by decide

/-! ### Characterization lemmas -/

lemma run_truthy_path (env : Env) (image command p : String) (cb : Bool)
    (h : env.pathExists image = true) :
    run_singularity_command env image command (some (.path p)) cb =
      runBody env image command [p] cb := by
  unfold run_singularity_command
  simp [h]

lemma run_truthy_coll (env : Env) (image command p : String)
    (ps : List String) (cb : Bool) (h : env.pathExists image = true) :
    run_singularity_command env image command (some (.coll (p :: ps))) cb =
      runBody env image command (p :: ps) cb := by
  unfold run_singularity_command
  simp [h]

lemma runBody_ok (env : Env) (image command : String) (dirs : List String)
    (cb : Bool) (lines : List String) (hd : 0 < dirs.length)
    (hE : env.execute (env.canon image) (pySplit command)
        (some (bindOf env dirs)) = .ok lines) :
    runBody env image command dirs cb =
      ([.logInfo (startMsg command image), .logInfo (hostMsg env.hostname),
        .logDebug debugMsg,
        .spawn (env.canon image) (pySplit command) (some (bindOf env dirs))] ++
        streamEvents cb lines, .ok ()) := by
  unfold runBody
  simp [hd, hE]

lemma runBody_err (env : Env) (image command : String) (dirs : List String)
    (cb : Bool) (plines : List String) (cmd out errS : String)
    (hd : 0 < dirs.length)
    (hE : env.execute (env.canon image) (pySplit command)
        (some (bindOf env dirs)) = .err plines cmd out errS) :
    runBody env image command dirs cb =
      (([.logInfo (startMsg command image), .logInfo (hostMsg env.hostname),
         .logDebug debugMsg,
         .spawn (env.canon image) (pySplit command) (some (bindOf env dirs))] ++
        streamEvents cb plines) ++ errorEvents command cmd out errS,
       .error (.executionFailed cmd out errS)) := by
  unfold runBody
  simp [hd, hE]

lemma splitWsAux_no_space (cs : List Char) :
    ∀ acc, (∀ c ∈ acc, isPySpace c = false) →
      ∀ t ∈ splitWsAux cs acc, ∀ c ∈ t, isPySpace c = false := by
  induction cs with
  | nil =>
      intro acc hacc t ht c hc
      simp only [splitWsAux] at ht
      by_cases h : acc = []
      · simp [h] at ht
      · simp [h] at ht
        subst ht
        exact hacc c (List.mem_reverse.mp hc)
  | cons d ds ih =>
      intro acc hacc t ht c hc
      simp only [splitWsAux] at ht
      by_cases hd : isPySpace d
      · rw [if_pos hd] at ht
        rcases List.mem_append.mp ht with h1 | h2
        · by_cases h : acc = []
          · simp [h] at h1
          · simp [h] at h1
            subst h1
            exact hacc c (List.mem_reverse.mp hc)
        · exact ih [] (by simp) t h2 c hc
      · rw [if_neg hd] at ht
        refine ih (d :: acc) ?_ t ht c hc
        intro x hx
        rcases List.mem_cons.mp hx with h | h
        · subst h; exact Bool.eq_false_iff.mpr hd
        · exact hacc x h

lemma pySplit_no_space (s : String) :
    ∀ t ∈ pySplit s, ∀ c ∈ t.data, isPySpace c = false := by
  intro t ht c hc
  rcases List.mem_map.mp ht with ⟨l, hl, hmk⟩
  subst hmk
  exact splitWsAux_no_space s.data [] (by simp) l hl c hc

lemma splitWsAux_flatten (cs : List Char) :
    ∀ acc, (splitWsAux cs acc).flatten =
      acc.reverse ++ cs.filter (fun c => !isPySpace c) := by
  induction cs with
  | nil =>
      intro acc
      by_cases h : acc = []
      · simp [splitWsAux, h]
      · simp [splitWsAux, h]
  | cons d ds ih =>
      intro acc
      by_cases hd : isPySpace d
      · by_cases h : acc = []
        · simp [splitWsAux, hd, h, ih, List.filter_cons]
        · simp [splitWsAux, hd, h, ih, List.filter_cons]
      · simp [splitWsAux, hd, ih, List.filter_cons]

lemma pySplit_flatten (s : String) :
    ((pySplit s).map String.data).flatten =
      s.data.filter (fun c => !isPySpace c) := by
  have h : (pySplit s).map String.data = splitWsAux s.data [] := by
    simp only [pySplit, List.map_map]
    exact List.map_id _
  rw [h, splitWsAux_flatten]
  simp

lemma splitWsAux_all_space (cs : List Char)
    (h : ∀ c ∈ cs, isPySpace c = true) : splitWsAux cs [] = [] := by
  induction cs with
  | nil => simp [splitWsAux]
  | cons d ds ih =>
      have hd : isPySpace d = true := h d (by simp)
      simp only [splitWsAux, hd, if_true]
      simp only [if_pos rfl, List.nil_append]
      exact ih (fun c hc => h c (List.mem_cons_of_mem d hc))

lemma pySplit_all_space (s : String)
    (h : ∀ c ∈ s.data, isPySpace c = true) : pySplit s = [] := by
  simp [pySplit, splitWsAux_all_space s.data h]

lemma streamEvents_false (lines : List String) :
    streamEvents false lines =
      (streamEvents true lines).filter (fun e => !e.isCallback) := by
  induction lines with
  | nil => simp [streamEvents]
  | cons l ls ih =>
      simp [streamEvents, List.filter_append, Event.isCallback] at ih ⊢
      exact ih

lemma streamEvents_true_callbacks (lines : List String) :
    (streamEvents true lines).filter Event.isCallback =
      lines.map Event.callback := by
  induction lines with
  | nil => simp [streamEvents]
  | cons l ls ih =>
      simp [streamEvents, List.filter_append, Event.isCallback] at ih ⊢
      exact ih

lemma spawn_mem_run_coll (env : Env) (image command p : String)
    (ps : List String) (cb : Bool) (h : env.pathExists image = true) :
    Event.spawn (env.canon image) (pySplit command) (some (bindOf env (p :: ps))) ∈
      (run_singularity_command env image command (some (.coll (p :: ps))) cb).1 := by
  rw [run_truthy_coll env image command p ps cb h]
  rcases hE : env.execute (env.canon image) (pySplit command)
      (some (bindOf env (p :: ps))) with lines | ⟨plines, cmd, out, errS⟩
  · rw [runBody_ok env image command (p :: ps) cb lines (by simp) hE]
    simp
  · rw [runBody_err env image command (p :: ps) cb plines cmd out errS (by simp) hE]
    simp

/-! ### Sample environments for concrete evaluations -/

def envOkHello : Env :=
  { pathExists := fun _ => true, canon := id, hostname := "host",
    execute := fun _ _ _ => .ok ["hello\n"] }

def envMissing : Env :=
  { pathExists := fun _ => false, canon := id, hostname := "host",
    execute := fun _ _ _ => .ok [] }

def envOkHi : Env :=
  { pathExists := fun _ => true, canon := id, hostname := "h",
    execute := fun _ _ _ => .ok ["hi \n"] }

def envOkEmpty : Env :=
  { pathExists := fun _ => true, canon := id, hostname := "h",
    execute := fun _ _ _ => .ok [] }

def envFails : Env :=
  { pathExists := fun _ => true, canon := id, hostname := "h",
    execute := fun _ _ _ => .err ["out\n"] "singularity exec img.sif false" "out\n" "boom" }

/-! ### Claims -/

/-- C1, code bug. The claim: with an existing image and empty or absent
`bind_dirs`, no bind argument is passed and the run proceeds to launch
the command; for image `test.sif` and command `echo hello` with no binds
the call succeeds and the callback receives the single line `hello`.
On the code this is false: the local variable `bind` is assigned only
inside the `if bind_dirs:` block, yet `bind=bind` is evaluated at the
`sclient.execute` call, so with `bind_dirs = None` (the documented
default) or an empty collection the call raises `UnboundLocalError`.
The trace holds only the two start-of-run info lines: no spawn event,
no callback event, and the result is the raised error. -/
theorem C1_no_binds_raises_unbound_local :
    run_singularity_command envOkHello "test.sif" "echo hello" none true =
      ([.logInfo "Running echo hello in test.sif",
        .logInfo "Attempting to run singularity command on host"],
       .error (.unboundLocal "bind")) ∧
    run_singularity_command envOkHello "test.sif" "echo hello"
        (some (.coll [])) true =
      ([.logInfo "Running echo hello in test.sif",
        .logInfo "Attempting to run singularity command on host"],
       .error (.unboundLocal "bind")) :=
  ⟨rfl, rfl⟩

/-- C2. For every image path that does not exist, the call fails with
`FileNotFoundError` (`ImageNotFound`) carrying the not-found message,
with an empty trace: no start-of-run log line, no spawn, no callback,
and hence no retry — the error is surfaced to the caller directly. -/
theorem C2_missing_image_fails_before_anything (env : Env)
    (image command : String) (bd : Option BindDirs) (cb : Bool)
    (h : env.pathExists image = false) :
    run_singularity_command env image command bd cb =
      ([], .error (.imageNotFound (notFoundMsg image))) := by
  unfold run_singularity_command
  simp [h]

theorem C2_missing_image_fails_before_anything_witness :
    run_singularity_command envMissing "missing.sif" "echo hello" none true =
      ([], .error (.imageNotFound (notFoundMsg "missing.sif"))) :=
  C2_missing_image_fails_before_anything envMissing "missing.sif"
    "echo hello" none true rfl

/-- C3. For every nonempty collection of bind directories, the bind list
handed to the runtime at the spawn consists of the canonical forms
(`p.absolute().resolve()`, modelled by `Env.canon`) of the inputs: a
path is in the bind list iff it is the canonical form of some input, and
each path occurs exactly once, even when the inputs contain duplicates
or symlink aliases (inputs with equal canonical forms); order carries no
meaning since the properties are stated up to membership and count. -/
theorem C3_bind_set_canonical_dedup (env : Env) (image command p : String)
    (ps : List String) (cb : Bool) (h : env.pathExists image = true) :
    ∃ b : List String,
      Event.spawn (env.canon image) (pySplit command) (some b) ∈
        (run_singularity_command env image command (some (.coll (p :: ps))) cb).1 ∧
      (∀ x, x ∈ b ↔ ∃ q ∈ p :: ps, env.canon q = x) ∧
      (∀ x ∈ b, b.count x = 1) := by
  refine ⟨bindOf env (p :: ps), spawn_mem_run_coll env image command p ps cb h,
    ?_, ?_⟩
  · intro x
    simp only [bindOf, List.mem_dedup, List.mem_map, List.mem_cons]
  · intro x hx
    exact List.count_eq_one_of_mem (List.nodup_dedup _) hx

theorem C3_bind_set_canonical_dedup_witness :
    ∃ b : List String,
      Event.spawn (envOkEmpty.canon "img.sif") (pySplit "c") (some b) ∈
        (run_singularity_command envOkEmpty "img.sif" "c"
          (some (.coll ["/data", "/data"])) false).1 ∧
      (∀ x, x ∈ b ↔ ∃ q ∈ ["/data", "/data"], envOkEmpty.canon q = x) ∧
      (∀ x ∈ b, b.count x = 1) :=
  C3_bind_set_canonical_dedup envOkEmpty "img.sif" "c" "/data" ["/data"]
    false rfl

/-- C4, counterexample. The claim says the callback is invoked with each
line BEFORE that line is logged, and that the logged form is the raw
line with only its trailing newline stripped. At the concrete input
below (one output line "hi \n") the trace shows the opposite order: the
info log of the line (index 4) comes before the callback invocation
(index 5); and the logged form is "hi" — all trailing whitespace is
stripped by `rstrip()`, not only the newline (else it would be "hi "). -/
theorem C4_counterexample_log_precedes_callback :
    (run_singularity_command envOkHi "i.sif" "c" (some (.path "/d")) true).1 =
      [.logInfo "Running c in i.sif",
       .logInfo "Attempting to run singularity command on h",
       .logDebug "Constructed singularity bindings: None",
       .spawn "i.sif" ["c"] (some ["/d"]),
       .logInfo "hi",
       .callback "hi \n"] := by
  decide

/-- C4, amended. For every output line, when a callback is supplied it
is invoked synchronously with the raw line, in emission order,
immediately AFTER the line is logged; the logged form has all trailing
whitespace (including the newline) stripped. -/
theorem C4_callback_after_log (env : Env) (image command p : String)
    (ps : List String) (lines : List String)
    (h : env.pathExists image = true)
    (hE : env.execute (env.canon image) (pySplit command)
        (some (bindOf env (p :: ps))) = .ok lines) :
    run_singularity_command env image command (some (.coll (p :: ps))) true =
      ([.logInfo (startMsg command image), .logInfo (hostMsg env.hostname),
        .logDebug debugMsg,
        .spawn (env.canon image) (pySplit command) (some (bindOf env (p :: ps)))] ++
        lines.flatMap (fun l => [.logInfo (pyRstrip l), .callback l]), .ok ()) := by
  rw [run_truthy_coll env image command p ps true h,
      runBody_ok env image command (p :: ps) true lines (by simp) hE]
  simp [streamEvents]

theorem C4_callback_after_log_witness :
    run_singularity_command envOkHi "i.sif" "c" (some (.coll ["/d"])) true =
      ([.logInfo (startMsg "c" "i.sif"), .logInfo (hostMsg envOkHi.hostname),
        .logDebug debugMsg,
        .spawn (envOkHi.canon "i.sif") (pySplit "c")
          (some (bindOf envOkHi ["/d"]))] ++
        ["hi \n"].flatMap (fun l => [.logInfo (pyRstrip l), .callback l]),
       .ok ()) :=
  C4_callback_after_log envOkHi "i.sif" "c" "/d" [] ["hi \n"] rfl rfl

/-- C5. Whenever the runtime reports command failure — modelled as
`ExecResult.err` carrying the lines streamed so far and the
`CalledProcessError`'s `cmd`, `stdout` and `stderr` fields — the call
fails with `ExecutionFailed` carrying exactly those `cmd`, `stdout` and
`stderr` fields unchanged, and the trace ends with the four error-level
log lines (the failed command, its stdout, its stderr, the exception
detail) emitted before the error is re-raised; the failure is never
swallowed: the result is the error. -/
theorem C5_execution_failed_propagates (env : Env) (image command p : String)
    (ps : List String) (cb : Bool) (plines : List String)
    (cmd out errS : String) (h : env.pathExists image = true)
    (hE : env.execute (env.canon image) (pySplit command)
        (some (bindOf env (p :: ps))) = .err plines cmd out errS) :
    (run_singularity_command env image command (some (.coll (p :: ps))) cb).2 =
      .error (.executionFailed cmd out errS) ∧
    ∃ pre : List Event,
      (run_singularity_command env image command (some (.coll (p :: ps))) cb).1 =
        pre ++ [.logError (s!"Failed to run command: {command}"),
                .logError (s!"Stdout: {out}"),
                .logError (s!"Stderr: {errS}"),
                .logError (s!"e=CalledProcessError {cmd}")] := by
  rw [run_truthy_coll env image command p ps cb h,
      runBody_err env image command (p :: ps) cb plines cmd out errS (by simp) hE]
  exact ⟨rfl, _, rfl⟩

theorem C5_execution_failed_propagates_witness :
    (run_singularity_command envFails "img.sif" "false"
        (some (.coll ["/data"])) true).2 =
      .error (.executionFailed "singularity exec img.sif false" "out\n" "boom") ∧
    ∃ pre : List Event,
      (run_singularity_command envFails "img.sif" "false"
          (some (.coll ["/data"])) true).1 =
        pre ++ [.logError "Failed to run command: false",
                .logError "Stdout: out\n",
                .logError "Stderr: boom",
                .logError "e=CalledProcessError singularity exec img.sif false"] :=
  C5_execution_failed_propagates envFails "img.sif" "false" "/data" [] true
    ["out\n"] "singularity exec img.sif false" "out\n" "boom" rfl rfl

/-- C6. The argument vector handed to the runtime at the spawn is
exactly `command.split()`: whitespace tokenization. No token contains a
whitespace character (so an argument with an embedded space cannot be
expressed), and the tokens' characters, concatenated, are exactly the
non-whitespace characters of the command in order — no shell
metacharacter interpretation, quoting or escaping transforms them. -/
theorem C6_whitespace_tokenization (env : Env) (image command p : String)
    (ps : List String) (cb : Bool) (h : env.pathExists image = true) :
    Event.spawn (env.canon image) (pySplit command)
        (some (bindOf env (p :: ps))) ∈
      (run_singularity_command env image command (some (.coll (p :: ps))) cb).1 ∧
    (∀ t ∈ pySplit command, ∀ c ∈ t.data, isPySpace c = false) ∧
    ((pySplit command).map String.data).flatten =
      command.data.filter (fun c => !isPySpace c) :=
  ⟨spawn_mem_run_coll env image command p ps cb h,
   pySplit_no_space command, pySplit_flatten command⟩

theorem C6_whitespace_tokenization_witness :
    Event.spawn (envOkEmpty.canon "img.sif") (pySplit "echo a  b")
        (some (bindOf envOkEmpty ["/d"])) ∈
      (run_singularity_command envOkEmpty "img.sif" "echo a  b"
        (some (.coll ["/d"])) false).1 ∧
    (∀ t ∈ pySplit "echo a  b", ∀ c ∈ t.data, isPySpace c = false) ∧
    ((pySplit "echo a  b").map String.data).flatten =
      "echo a  b".data.filter (fun c => !isPySpace c) :=
  C6_whitespace_tokenization envOkEmpty "img.sif" "echo a  b" "/d" [] false rfl

lemma runBody_cb (env : Env) (image command : String) (dirs : List String) :
    (runBody env image command dirs false).2 =
      (runBody env image command dirs true).2 ∧
    (runBody env image command dirs false).1 =
      (runBody env image command dirs true).1.filter (fun e => !e.isCallback) := by
  unfold runBody
  rcases hE : env.execute (env.canon image) (pySplit command)
      (if dirs.length > 0 then some (bindOf env dirs) else none) with
    lines | ⟨plines, cmd, out, errS⟩ <;>
  · simp only [hE]
    constructor
    · trivial
    · simp [List.filter_append, Event.isCallback, streamEvents_false,
        errorEvents]

lemma run_cb (env : Env) (image command : String) (bd : Option BindDirs) :
    (run_singularity_command env image command bd false).2 =
      (run_singularity_command env image command bd true).2 ∧
    (run_singularity_command env image command bd false).1 =
      (run_singularity_command env image command bd true).1.filter
        (fun e => !e.isCallback) := by
  by_cases h : env.pathExists image = true
  · match bd with
    | none =>
        constructor
        · rfl
        · simp [run_singularity_command, h, Event.isCallback]
    | some (.coll []) =>
        constructor
        · rfl
        · simp [run_singularity_command, h, Event.isCallback]
    | some (.path p) =>
        rw [run_truthy_path env image command p false h,
            run_truthy_path env image command p true h]
        exact runBody_cb env image command [p]
    | some (.coll (p :: ps)) =>
        rw [run_truthy_coll env image command p ps false h,
            run_truthy_coll env image command p ps true h]
        exact runBody_cb env image command (p :: ps)
  · have h' : env.pathExists image = false := by
      revert h
      cases env.pathExists image <;> simp
    constructor
    · simp [run_singularity_command, h']
    · simp [run_singularity_command, h']

/-- C7. The callback is a pure observer. For every invocation, the
result with no callback equals the result with a callback, and the
trace with no callback is the trace with a callback minus exactly the
callback events — presence or absence of the callback changes no log
line, no spawn, and no outcome. Moreover, on a successful run the
callback events are exactly one invocation per output line, in emission
order; absence of a callback is the identity no-op (no callback events
at all, by the filter equation). -/
theorem C7_callback_pure_observer (env : Env) (image command : String)
    (bd : Option BindDirs) :
    (run_singularity_command env image command bd false).2 =
      (run_singularity_command env image command bd true).2 ∧
    (run_singularity_command env image command bd false).1 =
      (run_singularity_command env image command bd true).1.filter
        (fun e => !e.isCallback) ∧
    (∀ p ps lines, env.pathExists image = true →
      env.execute (env.canon image) (pySplit command)
          (some (bindOf env (p :: ps))) = .ok lines →
      (run_singularity_command env image command
          (some (.coll (p :: ps))) true).1.filter Event.isCallback =
        lines.map Event.callback) := by
  refine ⟨(run_cb env image command bd).1, (run_cb env image command bd).2, ?_⟩
  intro p ps lines h hE
  rw [run_truthy_coll env image command p ps true h,
      runBody_ok env image command (p :: ps) true lines (by simp) hE]
  simp [List.filter_append, Event.isCallback, streamEvents_true_callbacks]

theorem C7_callback_pure_observer_witness :
    (run_singularity_command envOkHello "test.sif" "echo hello"
        (some (.coll ["/d"])) false).2 =
      (run_singularity_command envOkHello "test.sif" "echo hello"
        (some (.coll ["/d"])) true).2 ∧
    (run_singularity_command envOkHello "test.sif" "echo hello"
        (some (.coll ["/d"])) false).1 =
      (run_singularity_command envOkHello "test.sif" "echo hello"
        (some (.coll ["/d"])) true).1.filter (fun e => !e.isCallback) ∧
    (run_singularity_command envOkHello "test.sif" "echo hello"
        (some (.coll ["/d"])) true).1.filter Event.isCallback =
      ["hello\n"].map Event.callback :=
  ⟨(C7_callback_pure_observer envOkHello "test.sif" "echo hello"
      (some (.coll ["/d"]))).1,
   (C7_callback_pure_observer envOkHello "test.sif" "echo hello"
      (some (.coll ["/d"]))).2.1,
   (C7_callback_pure_observer envOkHello "test.sif" "echo hello"
      (some (.coll ["/d"]))).2.2 "/d" [] ["hello\n"] rfl rfl⟩

/-- C8, code bug. The claim: with a non-empty bind set, the debug-level
message contains the constructed bind list. In the code the debug call
formats `bind_str`, which is initialized to `None` and never reassigned
(the assignment that would have filled it is commented out), so at the
concrete input `bind_dirs = ["/data"]` the debug message is the literal
"Constructed singularity bindings: None" even though the bind list
actually handed to the runtime is `["/data"]`, as the spawn event in the
same trace shows. -/
theorem C8_debug_message_lacks_bind_list :
    run_singularity_command envOkEmpty "img.sif" "cmd"
        (some (.coll ["/data"])) false =
      ([.logInfo "Running cmd in img.sif",
        .logInfo "Attempting to run singularity command on h",
        .logDebug "Constructed singularity bindings: None",
        .spawn "img.sif" ["cmd"] (some ["/data"])], .ok ()) := rfl

/-- C9. A bare Path given as `bind_dirs` is wrapped into a one-element
list (`bind_dirs = [bind_dirs]`) and from then on treated identically to
passing the one-element collection: the two calls are equal in trace and
result, so in particular the bind set is the same. -/
theorem C9_bare_path_equals_singleton (env : Env) (image command p : String)
    (cb : Bool) :
    run_singularity_command env image command (some (.path p)) cb =
      run_singularity_command env image command (some (.coll [p])) cb := rfl

/-- C10. The command string is never validated for non-emptiness: for a
command consisting only of whitespace (including the empty string) with
an existing image, no precondition error is raised — `command.split()`
is the empty argument vector, it is handed to the runtime at the spawn,
and if the runtime reports success the call returns success. -/
theorem C10_no_command_validation (env : Env) (image command p : String)
    (ps : List String) (cb : Bool) (lines : List String)
    (h : env.pathExists image = true)
    (hw : ∀ c ∈ command.data, isPySpace c = true)
    (hE : env.execute (env.canon image) []
        (some (bindOf env (p :: ps))) = .ok lines) :
    (run_singularity_command env image command
        (some (.coll (p :: ps))) cb).2 = .ok () ∧
    Event.spawn (env.canon image) [] (some (bindOf env (p :: ps))) ∈
      (run_singularity_command env image command
        (some (.coll (p :: ps))) cb).1 := by
  have hs : pySplit command = [] := pySplit_all_space command hw
  have hE' : env.execute (env.canon image) (pySplit command)
      (some (bindOf env (p :: ps))) = .ok lines := by
    rw [hs]
    exact hE
  constructor
  · rw [run_truthy_coll env image command p ps cb h,
        runBody_ok env image command (p :: ps) cb lines (by simp) hE']
  · have hm := spawn_mem_run_coll env image command p ps cb h
    rwa [hs] at hm

theorem C10_no_command_validation_witness :
    (run_singularity_command envOkEmpty "img.sif" "  "
        (some (.coll ["/d"])) false).2 = .ok () ∧
    Event.spawn (envOkEmpty.canon "img.sif") []
        (some (bindOf envOkEmpty ["/d"])) ∈
      (run_singularity_command envOkEmpty "img.sif" "  "
        (some (.coll ["/d"])) false).1 :=
  C10_no_command_validation envOkEmpty "img.sif" "  " "/d" [] false []
    rfl (by decide) rfl
